import Mathlib

/-!
Verification of the risk-scoring and scenario-sensitivity engine of the
power-outage forecasting service.

The definitions below are a shallow embedding of the Python source:

* `src/src/models/ensemble_model.py` — `EnsemblePredictor._mock_prediction`
  (fallback scoring), `EnsemblePredictor._identify_contributing_factors`,
  `XGBoostEnsembleModel.predict_with_explanation` (model-mode scoring), and
  the dispatch in `EnsemblePredictor.predict`.
* `src/src/api/routes/simulation.py` — the override-application loop of
  `run_what_if_simulation` and the validation prologue of
  `run_sensitivity_analysis`.

Numbers are modelled as rationals.  Weather and grid payloads are Python
dicts accessed with `.get(key, default)`, so every field is an `Option`
with the source's default applied at each use site.
-/

namespace PowerOutage

/-- Weather payload (`input_data['weather']`), a dict read with `.get`. -/
structure WeatherData where
  temperature : Option ℚ := none
  humidity : Option ℚ := none
  wind_speed : Option ℚ := none
  rainfall : Option ℚ := none
  lightning_strikes : Option ℚ := none
  storm_alert : Option Bool := none
  deriving Repr, DecidableEq

/-- Grid payload (`input_data['grid']`), a dict read with `.get`. -/
structure GridData where
  load_factor : Option ℚ := none
  voltage_stability : Option ℚ := none
  historical_outages : Option ℚ := none
  maintenance_status : Option Bool := none
  feeder_health : Option ℚ := none
  deriving Repr, DecidableEq

/-- The `confidence_interval` dict of a prediction result. -/
structure ConfidenceInterval where
  lower : ℚ
  upper : ℚ
  deriving Repr, DecidableEq

/-- Result shape shared by both scoring modes. -/
structure PredictionResult where
  risk_score : ℚ
  confidence_interval : ConfidenceInterval
  contributing_factors : List String
  deriving Repr, DecidableEq

/-- `EnsemblePredictor._mock_prediction`, score part: the sequential
`risk_score += ...` chain followed by `min(100.0, max(0.0, risk_score))`. -/
def mock_risk_score (weather : WeatherData) (grid : GridData) : ℚ :=
  let s0 : ℚ := 0
  let s1 := s0 + (weather.rainfall.getD 0) * 0.8
  let s2 := s1 + (weather.wind_speed.getD 0) * 0.3
  let s3 := s2 + (weather.lightning_strikes.getD 0) * 2
  let s4 := if weather.storm_alert.getD false then s3 + 20 else s3
  let s5 := s4 + (1 - grid.voltage_stability.getD 1) * 30
  let s6 := s5 + (grid.load_factor.getD 0) * 25
  let s7 := if grid.maintenance_status.getD false then s6 + 15 else s6
  let s8 := s7 + (1 - grid.feeder_health.getD 1) * 20
  min 100 (max 0 s8)

/-- `EnsemblePredictor._identify_contributing_factors`: sequential appends
guarded by threshold rules, then `factors[:5]`. -/
def identify_contributing_factors (weather : WeatherData) (grid : GridData) :
    List String :=
  let factors : List String := []
  let factors := factors ++
    (if weather.rainfall.getD 0 > 25 then ["Heavy rainfall expected"] else [])
  let factors := factors ++
    (if weather.wind_speed.getD 0 > 50 then ["Strong winds forecasted"] else [])
  let factors := factors ++
    (if weather.lightning_strikes.getD 0 > 5 then ["High lightning activity"] else [])
  let factors := factors ++
    (if weather.storm_alert.getD false then ["Active storm warning"] else [])
  let factors := factors ++
    (if grid.load_factor.getD 0 > 0.8 then ["High electrical demand"] else [])
  let factors := factors ++
    (if grid.voltage_stability.getD 1 < 0.7 then ["Grid voltage instability"] else [])
  let factors := factors ++
    (if grid.maintenance_status.getD false then ["Equipment under maintenance"] else [])
  let factors := factors ++
    (if grid.feeder_health.getD 1 < 0.6 then ["Poor feeder condition"] else [])
  factors.take 5

/-- `EnsemblePredictor._mock_prediction`: score, fixed-width interval
`{'lower': max(0, s - 10), 'upper': min(100, s + 10)}`, and factors. -/
def mock_prediction (weather : WeatherData) (grid : GridData) : PredictionResult :=
  let risk_score := mock_risk_score weather grid
  { risk_score := risk_score
    confidence_interval :=
      { lower := max 0 (risk_score - 10)
        upper := min 100 (risk_score + 10) }
    contributing_factors := identify_contributing_factors weather grid }

/-- Elementwise `features_scaled + noise` (numpy array addition). -/
def zipAdd (xs ys : List ℚ) : List ℚ := List.zipWith (· + ·) xs ys

/-- The ten re-predictions
`model.predict(features_scaled + np.random.normal(0, 0.1, shape))[0]`
inside `predict_with_explanation`, with the random draws made explicit as
the list `noises`. -/
def perturbedScores (predictFn : List ℚ → ℚ) (features_scaled : List ℚ)
    (noises : List (List ℚ)) : List ℚ :=
  noises.map (fun noise => predictFn (zipAdd features_scaled noise))

/-- Arithmetic mean of a list of rationals (`np.mean`). -/
def listMean (xs : List ℚ) : ℚ := xs.sum / xs.length

/-- Population variance (`np.std(xs) ** 2`, numpy default `ddof = 0`). -/
def populationVariance (xs : List ℚ) : ℚ :=
  (xs.map (fun x => (x - listMean xs) ^ 2)).sum / xs.length

/-- `XGBoostEnsembleModel.predict_with_explanation`, score and interval part.
`predictFn` is the fitted regressor applied to (already scaled) features;
`uncertainty` stands for the value `np.std(...)` of the ten perturbed
re-predictions, i.e. the nonnegative square root of `populationVariance`
of `perturbedScores`; theorems that depend on its value carry that
characterisation as a hypothesis.  The raw score is returned unclamped:
`lower = max(0, s - 1.96*u)`, `upper = min(100, s + 1.96*u)`. -/
def predict_with_explanation (predictFn : List ℚ → ℚ) (features_scaled : List ℚ)
    (uncertainty : ℚ) : ℚ × ConfidenceInterval :=
  let risk_score := predictFn features_scaled
  (risk_score,
    { lower := max 0 (risk_score - 1.96 * uncertainty)
      upper := min 100 (risk_score + 1.96 * uncertainty) })

/-- `EnsemblePredictor.predict`: dispatch between model mode
(`is_trained`, using `predict_with_explanation` plus the contributing-factor
rules) and fallback mode (`_mock_prediction`).  `uncertainty` is the
random-perturbation artefact of model mode; fallback mode never consults it. -/
def ensemble_predict (is_trained : Bool) (predictFn : List ℚ → ℚ)
    (features_scaled : List ℚ) (uncertainty : ℚ)
    (weather : WeatherData) (grid : GridData) : PredictionResult :=
  if is_trained then
    let r := predict_with_explanation predictFn features_scaled uncertainty
    { risk_score := r.1
      confidence_interval := r.2
      contributing_factors := identify_contributing_factors weather grid }
  else
    mock_prediction weather grid

/-- Second definition for the refinement claim C2, following the claim's own
words: risk is the single weighted sum
`0.8*rainfall + 0.3*wind_speed + 2.0*lightning_strikes + 20[storm_alert]
 + 30*(1-voltage_stability) + 25*load_factor + 15[maintenance_status]
 + 20*(1-feeder_health)` clamped to `[0,100]`, missing fields replaced by
their benign defaults. -/
def claimed_mock_formula (weather : WeatherData) (grid : GridData) : ℚ :=
  let total :=
    0.8 * weather.rainfall.getD 0
    + 0.3 * weather.wind_speed.getD 0
    + 2.0 * weather.lightning_strikes.getD 0
    + (if weather.storm_alert.getD false then 20 else 0)
    + 30 * (1 - grid.voltage_stability.getD 1)
    + 25 * grid.load_factor.getD 0
    + (if grid.maintenance_status.getD false then 15 else 0)
    + 20 * (1 - grid.feeder_health.getD 1)
  min 100 (max 0 total)

/-- Second definition for the refinement claim C5, following the claim's own
words: confidence interval `[score - 1.96*sigma, score + 1.96*sigma]` with
both endpoints clamped to `[0,100]`, `sigma` being the empirical standard
deviation of the ten perturbed scores. -/
def claimed_confidence_interval (score sigma : ℚ) : ConfidenceInterval :=
  { lower := min 100 (max 0 (score - 1.96 * sigma))
    upper := min 100 (max 0 (score + 1.96 * sigma)) }

/-! ### Scenario overrides (`run_what_if_simulation`, simulation.py)

The modified scenario is `request.base_scenario.dict()`, a nested dict of
numbers, booleans and strings.  We embed such values as `JVal`. -/

/-- A Python value inside the scenario dict. -/
inductive JVal where
  | num : ℚ → JVal
  | bool : Bool → JVal
  | str : String → JVal
  | obj : List (String × JVal) → JVal
  deriving Repr

/-- First-match association lookup: Python `d[key]` on a dict, `none` when
the key raises `KeyError`. -/
def assocFind : List (String × JVal) → String → Option JVal
  | [], _ => none
  | (k, v) :: rest, key => if k = key then some v else assocFind rest key

/-- Python `d[key] = value`: replace an existing binding in place, or append
a fresh one (dict assignment never fails on a dict). -/
def assocSet : List (String × JVal) → String → JVal → List (String × JVal)
  | [], key, value => [(key, value)]
  | (k, v) :: rest, key, value =>
    if k = key then (k, value) :: rest else (k, v) :: assocSet rest key value

/-- One override of the loop in `run_what_if_simulation`:
navigate `current = current[key]` over all but the last path segment and
assign `current[keys[-1]] = new_value`.  `none` models the `KeyError` /
`TypeError` that the surrounding `try` catches (missing intermediate key,
or indexing / assigning into a non-dict). -/
def setPath : List String → JVal → JVal → Option JVal
  | [], _, _ => none
  | [key], container, value =>
    match container with
    | JVal.obj fields => some (JVal.obj (assocSet fields key value))
    | _ => none
  | key :: k2 :: ks, container, value =>
    match container with
    | JVal.obj fields =>
      match assocFind fields key with
      | some child =>
        match setPath (k2 :: ks) child value with
        | some child2 => some (JVal.obj (assocSet fields key child2))
        | none => none
      | none => none
    | _ => none

/-- Python `str.split(sep)` for a one-character separator, on the character
list of the string (structural, so it evaluates in the kernel). -/
def splitChar (sep : Char) : List Char → List (List Char)
  | [] => [[]]
  | c :: cs =>
    if c = sep then [] :: splitChar sep cs
    else
      match splitChar sep cs with
      | [] => [[c]]
      | g :: gs => (c :: g) :: gs

/-- `param_path.split('.')` of the override loop. -/
def splitDots (s : String) : List String :=
  (splitChar '.' s.toList).map (fun cs => String.mk cs)

/-- One iteration of the override loop of `run_what_if_simulation`: try the
override on the scenario; on `KeyError`/`TypeError` keep the scenario and
log a warning (collected in the second component). -/
def apply_override_step (acc : JVal × List String) (m : String × JVal) :
    JVal × List String :=
  match setPath (splitDots m.1) acc.1 m.2 with
  | some v => (v, acc.2)
  | none => (acc.1, acc.2 ++ [m.1])

/-- The override-application loop of `run_what_if_simulation`
(simulation.py): each `param_path` is split on `'.'` and applied to the
scenario dict; a failing override is skipped with a logged warning and the
loop continues. -/
def what_if_apply_overrides (base : JVal) (mods : List (String × JVal)) :
    JVal × List String :=
  mods.foldl apply_override_step (base, [])

/-- Observation helper: read a numeric field at a dotted path. -/
def getNum : JVal → List String → Option ℚ
  | JVal.num q, [] => some q
  | JVal.obj fields, key :: rest =>
    match assocFind fields key with
    | some child => getNum child rest
    | none => none
  | _, _ => none

/-- A concrete `request.base_scenario.dict()`: all fields of the
`PredictionRequest` pydantic model (api/models.py). -/
def base_scenario_dict : JVal :=
  JVal.obj [
    ("weather_data", JVal.obj [
      ("latitude", JVal.num 12.97), ("longitude", JVal.num 77.59),
      ("temperature", JVal.num 25), ("humidity", JVal.num 60),
      ("wind_speed", JVal.num 10), ("rainfall", JVal.num 0),
      ("lightning_strikes", JVal.num 0), ("storm_alert", JVal.bool false)]),
    ("grid_data", JVal.obj [
      ("substation_id", JVal.str "KA-001"), ("load_factor", JVal.num 0.5),
      ("voltage_stability", JVal.num 0.95), ("historical_outages", JVal.num 2),
      ("maintenance_status", JVal.bool false), ("feeder_health", JVal.num 0.9)]),
    ("prediction_horizon", JVal.num 24)]

/-! ### Sensitivity analysis (`run_sensitivity_analysis`, simulation.py) -/

/-- Python float division, which raises `ZeroDivisionError` on a zero
denominator. -/
def pyDiv (a b : ℚ) : Option ℚ := if b = 0 then none else some (a / b)

/-- Outcome of `run_sensitivity_analysis`: a 400 validation rejection, an
unhandled exception turned into a 500 (internal failure), or the list of
`(parameter_value, score)` samples. -/
inductive SensitivityOutcome where
  | rejected : String → SensitivityOutcome
  | internalFailure : SensitivityOutcome
  | ok : List (ℚ × ℚ) → SensitivityOutcome
  deriving Repr, DecidableEq

/-- `run_sensitivity_analysis` (simulation.py): validation prologue, then
`step_size = (max_value - min_value) / (steps - 1)`,
`parameter_values = [min_value + i * step_size for i in range(steps)]`,
then one scoring simulation per value.  `score` abstracts the per-value
what-if scoring call; the second component counts scorer invocations. -/
def run_sensitivity_analysis (score : ℚ → ℚ) (min_value max_value : ℚ)
    (steps : ℤ) : SensitivityOutcome × ℕ :=
  if steps > 20 then
    (SensitivityOutcome.rejected "Maximum 20 steps allowed", 0)
  else if min_value ≥ max_value then
    (SensitivityOutcome.rejected "min_value must be less than max_value", 0)
  else
    match pyDiv (max_value - min_value) ((steps : ℚ) - 1) with
    | none => (SensitivityOutcome.internalFailure, 0)
    | some step_size =>
      let parameter_values :=
        (List.range steps.toNat).map (fun i => min_value + (i : ℚ) * step_size)
      (SensitivityOutcome.ok (parameter_values.map (fun v => (v, score v))),
        parameter_values.length)

/-! ### Shared lemmas -/

/-- Clamping to `[0,100]` is monotone. -/
lemma clamp_mono {a b : ℚ} (h : a ≤ b) :
    min 100 (max 0 a) ≤ min 100 (max 0 b) :=
  min_le_min (le_refl _) (max_le_max (le_refl _) h)

/-- The fallback score is nonnegative. -/
lemma mock_risk_score_nonneg (w : WeatherData) (g : GridData) :
    0 ≤ mock_risk_score w g := by
  unfold mock_risk_score
  exact le_min (by norm_num) (le_max_left 0 _)

/-- The fallback score is at most 100. -/
lemma mock_risk_score_le_100 (w : WeatherData) (g : GridData) :
    mock_risk_score w g ≤ 100 :=
  min_le_left _ _

/-! ### Claims -/

/-- C2: the fallback score equals the claimed weighted-sum formula
(0.8·rainfall + 0.3·wind + 2·lightning + 20[storm] + 30·(1−voltage)
 + 25·load + 15[maintenance] + 20·(1−feeder)), clamped to `[0,100]`,
with missing fields replaced by their benign defaults. -/
theorem C2_mock_score_matches_claimed_formula (w : WeatherData) (g : GridData) :
    mock_risk_score w g = claimed_mock_formula w g := by
  unfold mock_risk_score claimed_mock_formula
  split_ifs <;> ring_nf

/-- C7: the fallback score never decreases when rainfall, wind speed or the
lightning count grows, or when the storm alert is switched on. -/
theorem C7_mock_score_monotone :
    (∀ (w : WeatherData) (g : GridData) (r : ℚ), w.rainfall.getD 0 ≤ r →
      mock_risk_score w g ≤ mock_risk_score { w with rainfall := some r } g) ∧
    (∀ (w : WeatherData) (g : GridData) (v : ℚ), w.wind_speed.getD 0 ≤ v →
      mock_risk_score w g ≤ mock_risk_score { w with wind_speed := some v } g) ∧
    (∀ (w : WeatherData) (g : GridData) (l : ℚ), w.lightning_strikes.getD 0 ≤ l →
      mock_risk_score w g ≤ mock_risk_score { w with lightning_strikes := some l } g) ∧
    (∀ (w : WeatherData) (g : GridData), w.storm_alert.getD false = false →
      mock_risk_score w g ≤ mock_risk_score { w with storm_alert := some true } g) := by
  refine ⟨?_, ?_, ?_, ?_⟩ <;> intro w g
  · intro r hr
    unfold mock_risk_score
    simp only [Option.getD_some]
    split_ifs <;> exact clamp_mono (by nlinarith)
  · intro v hv
    unfold mock_risk_score
    simp only [Option.getD_some]
    split_ifs <;> exact clamp_mono (by nlinarith)
  · intro l hl
    unfold mock_risk_score
    simp only [Option.getD_some]
    split_ifs <;> exact clamp_mono (by nlinarith)
  · intro hs
    unfold mock_risk_score
    simp only [Option.getD_some, hs]
    split_ifs <;> exact clamp_mono (by nlinarith)

/-- Witness for C7 at concrete inputs. -/
theorem C7_mock_score_monotone_witness :
    mock_risk_score { rainfall := some 10 } {} ≤
      mock_risk_score { rainfall := some 30 } {} :=
  C7_mock_score_monotone.1 { rainfall := some 10 } {} 30 (by norm_num)

/-- C8: fallback-mode scoring is deterministic — it ignores the model, the
feature vector and the random-perturbation artefact entirely, so two calls
with identical weather and grid payloads return identical results. -/
theorem C8_fallback_deterministic
    (f₁ f₂ : List ℚ → ℚ) (fs₁ fs₂ : List ℚ) (u₁ u₂ : ℚ)
    (w w' : WeatherData) (g g' : GridData) (hw : w = w') (hg : g = g') :
    ensemble_predict false f₁ fs₁ u₁ w g = ensemble_predict false f₂ fs₂ u₂ w' g' := by
  subst hw; subst hg; rfl

/-- Witness for C8 at concrete inputs. -/
theorem C8_fallback_deterministic_witness :
    ensemble_predict false (fun _ => 0) [] 0 { rainfall := some 30 } {} =
      ensemble_predict false (fun _ => 1) [1, 2] 5 { rainfall := some 30 } {} :=
  C8_fallback_deterministic _ _ _ _ _ _ _ _ _ _ rfl rfl

/-- C1 fails as stated: model mode applies no clamping, so a fitted
regressor whose raw output is 150 makes `predict_with_explanation` return a
risk score of 150, outside `[0,100]`. -/
theorem C1_counterexample :
    (ensemble_predict true (fun _ => 150) [] 0 {} {}).risk_score = 150 ∧
    ¬((ensemble_predict true (fun _ => 150) [] 0 {} {}).risk_score ≤ 100) := by
  refine ⟨rfl, ?_⟩
  norm_num [ensemble_predict, predict_with_explanation]

/-- C1 amended: in fallback mode the risk score always lies in `[0,100]`;
in model mode no clamping is applied — the returned score equals the raw
regressor output, so it lies in `[0,100]` only when that output does. -/
theorem C1_amended_risk_score_range :
    (∀ (w : WeatherData) (g : GridData),
      0 ≤ (mock_prediction w g).risk_score ∧ (mock_prediction w g).risk_score ≤ 100) ∧
    (∀ (f : List ℚ → ℚ) (fs : List ℚ) (u : ℚ) (w : WeatherData) (g : GridData),
      (ensemble_predict true f fs u w g).risk_score = f fs) := by
  constructor
  · intro w g
    exact ⟨mock_risk_score_nonneg w g, mock_risk_score_le_100 w g⟩
  · intro f fs u w g
    rfl

/-- C3 fails as stated: with a regressor whose raw output is 150 the
interval upper bound is clamped to 100 while the returned score stays 150,
so `risk_score ≤ confidence_interval.upper` is violated. -/
theorem C3_counterexample :
    (ensemble_predict true (fun _ => 150) [] 0 {} {}).confidence_interval.upper = 100 ∧
    ¬((ensemble_predict true (fun _ => 150) [] 0 {} {}).risk_score ≤
        (ensemble_predict true (fun _ => 150) [] 0 {} {}).confidence_interval.upper) := by
  constructor <;> norm_num [ensemble_predict, predict_with_explanation]

/-- C3 amended: `lower ≤ risk_score ≤ upper` holds for every fallback-mode
result, and in model mode whenever the raw regressor output lies in
`[0,100]` and the perturbation spread is nonnegative. -/
theorem C3_amended_interval_brackets_score :
    (∀ (w : WeatherData) (g : GridData),
      (mock_prediction w g).confidence_interval.lower ≤ (mock_prediction w g).risk_score ∧
      (mock_prediction w g).risk_score ≤ (mock_prediction w g).confidence_interval.upper) ∧
    (∀ (f : List ℚ → ℚ) (fs : List ℚ) (u : ℚ) (w : WeatherData) (g : GridData),
      0 ≤ f fs → f fs ≤ 100 → 0 ≤ u →
      (ensemble_predict true f fs u w g).confidence_interval.lower ≤
        (ensemble_predict true f fs u w g).risk_score ∧
      (ensemble_predict true f fs u w g).risk_score ≤
        (ensemble_predict true f fs u w g).confidence_interval.upper) := by
  constructor
  · intro w g
    have h0 := mock_risk_score_nonneg w g
    have h1 := mock_risk_score_le_100 w g
    constructor
    · show max 0 (mock_risk_score w g - 10) ≤ mock_risk_score w g
      exact max_le h0 (by linarith)
    · show mock_risk_score w g ≤ min 100 (mock_risk_score w g + 10)
      exact le_min h1 (by linarith)
  · intro f fs u w g h0 h1 hu
    have hcu : 0 ≤ (1.96 : ℚ) * u := mul_nonneg (by norm_num) hu
    constructor
    · show max 0 (f fs - 1.96 * u) ≤ f fs
      exact max_le h0 (by linarith)
    · show f fs ≤ min 100 (f fs + 1.96 * u)
      exact le_min h1 (by linarith)

/-- Witness for C3 amended at a concrete model-mode call. -/
theorem C3_amended_witness :
    (ensemble_predict true (fun _ => 50) [] 1 {} {}).confidence_interval.lower ≤
      (ensemble_predict true (fun _ => 50) [] 1 {} {}).risk_score ∧
    (ensemble_predict true (fun _ => 50) [] 1 {} {}).risk_score ≤
      (ensemble_predict true (fun _ => 50) [] 1 {} {}).confidence_interval.upper :=
  C3_amended_interval_brackets_score.2 (fun _ => 50) [] 1 {} {}
    (by norm_num) (by norm_num) (by norm_num)

/-- The empirical variance of identical samples is zero. -/
lemma populationVariance_replicate (n : ℕ) (x : ℚ) :
    populationVariance (List.replicate n x) = 0 := by
  rcases n with _ | n
  · simp [populationVariance]
  · have hmean : listMean (List.replicate (n + 1) x) = x := by
      rw [listMean, List.sum_replicate, List.length_replicate]
      push_cast
      rw [nsmul_eq_mul]
      push_cast
      field_simp
    rw [populationVariance, hmean, List.map_replicate]
    simp

/-- C5 fails as stated: at rainfall 200 the fallback score is 100 and ten
small perturbations of the rainfall all still score 100, so the claimed
procedure yields a spread of 0 and the degenerate interval `[100,100]`,
while fallback mode returns the fixed-width interval `[90,100]` without
running any perturbation procedure. -/
theorem C5_counterexample :
    (([1/100, 2/100, 3/100, 4/100, 5/100, 6/100, 7/100, 8/100, 9/100, 10/100] : List ℚ).map
        (fun d => mock_risk_score { rainfall := some (200 + d) } {}) =
      List.replicate 10 100) ∧
    populationVariance (List.replicate 10 (100 : ℚ)) = 0 ∧
    (mock_prediction { rainfall := some 200 } {}).risk_score = 100 ∧
    (mock_prediction { rainfall := some 200 } {}).confidence_interval =
      { lower := 90, upper := 100 } ∧
    claimed_confidence_interval 100 0 = { lower := 100, upper := 100 } ∧
    ({ lower := 90, upper := 100 } : ConfidenceInterval) ≠
      { lower := 100, upper := 100 } := by
  refine ⟨?_, populationVariance_replicate 10 100, ?_, ?_, ?_, ?_⟩
  · norm_num [mock_risk_score, min_def, max_def, List.replicate]
  · norm_num [mock_prediction, mock_risk_score, min_def, max_def]
  · norm_num [mock_prediction, mock_risk_score, min_def, max_def,
      ConfidenceInterval.mk.injEq]
  · norm_num [claimed_confidence_interval, min_def, max_def,
      ConfidenceInterval.mk.injEq]
  · simp only [ne_eq, ConfidenceInterval.mk.injEq]
    norm_num

/-- C5 amended: in model mode, whenever the raw score lies in `[0,100]`,
the interval equals `[score − 1.96σ̂, score + 1.96σ̂]` clamped to `[0,100]`
with σ̂ the standard deviation of the ten perturbed re-predictions (σ̂ = 0
degenerates to `[score,score]`); in fallback mode the interval is instead
the fixed-width `[max(0, score−10), min(100, score+10)]`, with no
perturbation involved. -/
theorem C5_amended_confidence_interval :
    (∀ (f : List ℚ → ℚ) (fs : List ℚ) (noises : List (List ℚ)) (u : ℚ)
      (w : WeatherData) (g : GridData),
      noises.length = 10 →
      u * u = populationVariance (perturbedScores f fs noises) →
      0 ≤ u → 0 ≤ f fs → f fs ≤ 100 →
      (ensemble_predict true f fs u w g).confidence_interval =
        claimed_confidence_interval (f fs) u) ∧
    (∀ (w : WeatherData) (g : GridData),
      (mock_prediction w g).confidence_interval =
        { lower := max 0 ((mock_prediction w g).risk_score - 10)
          upper := min 100 ((mock_prediction w g).risk_score + 10) }) := by
  constructor
  · intro f fs noises u w g _ _ hu h0 h1
    have hcu : 0 ≤ (1.96 : ℚ) * u := mul_nonneg (by norm_num) hu
    show ({ lower := max 0 (f fs - 1.96 * u)
            upper := min 100 (f fs + 1.96 * u) } : ConfidenceInterval) =
      claimed_confidence_interval (f fs) u
    unfold claimed_confidence_interval
    congr 1
    · exact (min_eq_right (max_le (by norm_num) (by linarith))).symm
    · rw [max_eq_right (by linarith)]
  · intro w g
    rfl

/-- Witness for C5 amended: a model whose ten zero-noise re-predictions all
coincide, so the spread is exactly 0. -/
theorem C5_amended_witness :
    (ensemble_predict true (fun _ => 50) [] 0 {} {}).confidence_interval =
      claimed_confidence_interval 50 0 :=
  C5_amended_confidence_interval.1 (fun _ => 50) [] (List.replicate 10 []) 0 {} {}
    (by simp)
    (by simp only [perturbedScores, List.map_replicate, populationVariance_replicate]; norm_num)
    (by norm_num) (by norm_num) (by norm_num)

/-- C6 fails as stated: on an all-benign input no threshold rule fires and
the factors list is empty — there is no "score within normal range"
fallback factor in the code; moreover the code has a `wind_speed > 50`
rule that the claim's rule list omits. -/
theorem C6_counterexample :
    (mock_prediction {} {}).contributing_factors = [] ∧
    (mock_prediction { wind_speed := some 60 } {}).contributing_factors =
      ["Strong winds forecasted"] := by
  constructor <;> norm_num [mock_prediction, identify_contributing_factors]

/-- C6 amended: the factors list is built by the fixed threshold rules —
including also `wind_speed > 50 → "Strong winds forecasted"`, which the
claim omits — and capped at 5 entries; when no rule fires the list is
empty. -/
theorem C6_amended_contributing_factors (w : WeatherData) (g : GridData) :
    (identify_contributing_factors w g).length ≤ 5 ∧
    (identify_contributing_factors w g = [] ↔
      (¬(w.rainfall.getD 0 > 25) ∧ ¬(w.wind_speed.getD 0 > 50) ∧
       ¬(w.lightning_strikes.getD 0 > 5) ∧ w.storm_alert.getD false = false ∧
       ¬(g.load_factor.getD 0 > 0.8) ∧ ¬(g.voltage_stability.getD 1 < 0.7) ∧
       g.maintenance_status.getD false = false ∧
       ¬(g.feeder_health.getD 1 < 0.6))) := by
  unfold identify_contributing_factors
  constructor
  · rw [List.length_take]
    exact min_le_left _ _
  · rw [List.take_eq_nil_iff]
    simp only [List.append_eq_nil, List.nil_append, ite_eq_right_iff,
      List.cons_ne_nil, imp_false, Bool.not_eq_true, OfNat.ofNat_ne_zero,
      false_or, not_lt]
    constructor
    · rintro ⟨⟨⟨⟨⟨⟨⟨h1, h2⟩, h3⟩, h4⟩, h5⟩, h6⟩, h7⟩, h8⟩
      exact ⟨by simpa using h1, by simpa using h2, by simpa using h3, h4,
        by simpa using h5, by simpa using h6, h7, by simpa using h8⟩
    · rintro ⟨h1, h2, h3, h4, h5, h6, h7, h8⟩
      exact ⟨⟨⟨⟨⟨⟨⟨by simpa using h1, by simpa using h2⟩, by simpa using h3⟩, h4⟩,
        by simpa using h5⟩, by simpa using h6⟩, h7⟩, by simpa using h8⟩

/-- The warning accumulator of the override loop threads through unchanged:
the scenario produced by the fold does not depend on previously collected
warnings, and warnings only ever accumulate at the end. -/
lemma foldl_override_warnings (mods : List (String × JVal)) (b : JVal)
    (ws : List String) :
    mods.foldl apply_override_step (b, ws) =
      ((mods.foldl apply_override_step (b, [])).1,
        ws ++ (mods.foldl apply_override_step (b, [])).2) := by
  induction mods generalizing b ws with
  | nil => simp
  | cons m rest ih =>
    simp only [List.foldl_cons]
    rcases hm : setPath (splitDots m.1) b m.2 with _ | v
    · rw [show apply_override_step (b, ws) m = (b, ws ++ [m.1]) by
        simp [apply_override_step, hm]]
      rw [show apply_override_step (b, []) m = (b, [m.1]) by
        simp [apply_override_step, hm]]
      rw [ih b (ws ++ [m.1]), ih b [m.1]]
      simp
    · rw [show apply_override_step (b, ws) m = (v, ws) by
        simp [apply_override_step, hm]]
      rw [show apply_override_step (b, []) m = (v, []) by
        simp [apply_override_step, hm]]
      exact ih v ws

/-- Python dict assignment on an absent key appends a fresh binding. -/
lemma assocSet_of_find_none (fields : List (String × JVal)) (key : String)
    (v : JVal) (h : assocFind fields key = none) :
    assocSet fields key v = fields ++ [(key, v)] := by
  induction fields with
  | nil => rfl
  | cons kv rest ih =>
    obtain ⟨k, w⟩ := kv
    by_cases hk : k = key
    · simp [assocFind, hk] at h
    · simp only [assocFind, hk, if_false] at h
      simp [assocSet, hk, ih h]

/-- C4 fails as stated: the override path `weather_data.snowfall` references
a field that exists nowhere in the base scenario, yet the code does not
skip it — the loop's final dict assignment creates the field with the new
value and no warning is recorded. -/
theorem C4_counterexample :
    getNum base_scenario_dict ["weather_data", "snowfall"] = none ∧
    (what_if_apply_overrides base_scenario_dict
        [("weather_data.snowfall", JVal.num 12)]).2 = [] ∧
    getNum (what_if_apply_overrides base_scenario_dict
        [("weather_data.snowfall", JVal.num 12)]).1
        ["weather_data", "snowfall"] = some 12 :=
  ⟨rfl, rfl, rfl⟩

/-- C4 amended: an override whose path fails to resolve — a missing
intermediate segment, or navigation or assignment into a non-object — is
skipped with a warning while all remaining overrides still apply, and the
diff is never aborted; but an override whose final segment names a
non-existent field of an existing object is not skipped: the field is
created with the new value. -/
theorem C4_amended_override_handling :
    (∀ (base : JVal) (p : String) (v : JVal) (mods : List (String × JVal)),
      setPath (splitDots p) base v = none →
      what_if_apply_overrides base ((p, v) :: mods) =
        ((what_if_apply_overrides base mods).1,
          p :: (what_if_apply_overrides base mods).2)) ∧
    (∀ (fields : List (String × JVal)) (key : String) (v : JVal),
      assocFind fields key = none →
      setPath [key] (JVal.obj fields) v =
        some (JVal.obj (fields ++ [(key, v)]))) := by
  constructor
  · intro base p v mods h
    unfold what_if_apply_overrides
    rw [List.foldl_cons,
      show apply_override_step (base, []) (p, v) = (base, [p]) by
        simp [apply_override_step, h],
      foldl_override_warnings]
    simp
  · intro fields key v h
    simp [setPath, assocSet_of_find_none fields key v h]

/-- Witness for C4 amended: a misspelt container segment is skipped with a
warning while the following valid override still applies. -/
theorem C4_amended_witness :
    what_if_apply_overrides base_scenario_dict
        [("wether_data.rainfall", JVal.num 60), ("weather_data.rainfall", JVal.num 7)] =
      ((what_if_apply_overrides base_scenario_dict
          [("weather_data.rainfall", JVal.num 7)]).1,
        "wether_data.rainfall" :: (what_if_apply_overrides base_scenario_dict
          [("weather_data.rainfall", JVal.num 7)]).2) :=
  C4_amended_override_handling.1 base_scenario_dict
    "wether_data.rainfall" (JVal.num 60)
    [("weather_data.rainfall", JVal.num 7)] rfl

/-- C9: an invalid sensitivity range (`min_value >= max_value` or
`steps > 20`) is rejected synchronously with a validation error and zero
scorer invocations. -/
theorem C9_invalid_range_rejected_before_scoring
    (score : ℚ → ℚ) (min_value max_value : ℚ) (steps : ℤ)
    (h : min_value ≥ max_value ∨ steps > 20) :
    (∃ d, (run_sensitivity_analysis score min_value max_value steps).1 =
      SensitivityOutcome.rejected d) ∧
    (run_sensitivity_analysis score min_value max_value steps).2 = 0 := by
  unfold run_sensitivity_analysis
  by_cases h20 : steps > 20
  · refine ⟨⟨"Maximum 20 steps allowed", ?_⟩, ?_⟩ <;> simp [h20]
  · have hmm : min_value ≥ max_value := by tauto
    refine ⟨⟨"min_value must be less than max_value", ?_⟩, ?_⟩ <;>
      simp [h20, hmm]

/-- Witness for C9 at the spec's own example `min_value=10, max_value=5`. -/
theorem C9_witness :
    (∃ d, (run_sensitivity_analysis (fun v => v) 10 5 10).1 =
      SensitivityOutcome.rejected d) ∧
    (run_sensitivity_analysis (fun v => v) 10 5 10).2 = 0 :=
  C9_invalid_range_rejected_before_scoring (fun v => v) 10 5 10
    (Or.inl (by norm_num))

/-- C10: with `steps = 1` and a valid range, validation passes but the
sample spacing divides by `steps - 1 = 0`, so the call fails internally
with zero samples scored and no result; and a sweep can only produce a
nonempty result when `2 ≤ steps` (and `steps ≤ 20`). -/
theorem C10_single_step_fails_internally :
    (∀ (score : ℚ → ℚ) (min_value max_value : ℚ), min_value < max_value →
      (run_sensitivity_analysis score min_value max_value 1).1 =
        SensitivityOutcome.internalFailure ∧
      (run_sensitivity_analysis score min_value max_value 1).2 = 0) ∧
    (∀ (score : ℚ → ℚ) (min_value max_value : ℚ) (steps : ℤ)
      (results : List (ℚ × ℚ)),
      (run_sensitivity_analysis score min_value max_value steps).1 =
        SensitivityOutcome.ok results → results ≠ [] →
      2 ≤ steps ∧ steps ≤ 20) := by
  constructor
  · intro score min_value max_value h
    have h1 : ¬(min_value ≥ max_value) := not_le.mpr h
    constructor <;>
      simp [run_sensitivity_analysis, h1, pyDiv,
        show ¬((1 : ℤ) > 20) by norm_num]
  · intro score min_value max_value steps results hok hne
    unfold run_sensitivity_analysis at hok
    by_cases h20 : steps > 20
    · simp [h20] at hok
    · by_cases hmm : min_value ≥ max_value
      · simp [h20, hmm] at hok
      · simp only [h20, hmm, if_false] at hok
        rcases hd : pyDiv (max_value - min_value) ((steps : ℚ) - 1) with _ | step_size
        · rw [hd] at hok
          simp at hok
        · rw [hd] at hok
          simp only [SensitivityOutcome.ok.injEq] at hok
          have hsteps1 : steps ≠ 1 := by
            intro h1
            subst h1
            simp [pyDiv] at hd
          have hpos : steps.toNat ≠ 0 := by
            intro h0
            apply hne
            rw [← hok, h0]
            simp
          refine ⟨?_, by omega⟩
          have : 1 ≤ steps := by omega
          omega

/-- Witness for C10 at a concrete single-step call. -/
theorem C10_witness :
    (run_sensitivity_analysis (fun v => v) 0 10 1).1 =
      SensitivityOutcome.internalFailure ∧
    (run_sensitivity_analysis (fun v => v) 0 10 1).2 = 0 :=
  C10_single_step_fails_internally.1 (fun v => v) 0 10 (by norm_num)

end PowerOutage
